import Mathlib

/-!
Verification development for the YukkiMusic download-provider core:
a shallow embedding of the two provider variants (ShrutiAPIPlatform and
YoutubifyPlatform) with their cache check, control-plane token request,
data-plane streaming transfer and verification steps, together with
theorems settling the specified properties.
-/

namespace YukkiMusic

/-- Platform name of the ShrutiAPI provider, from the source constant PlatformShrutiAPI. -/
def PlatformShrutiAPI : String := "ShrutiAPI"

/-- Platform name of the Youtubify provider, from the source constant PlatformYoutubify. -/
def PlatformYoutubify : String := "xyz"

/-- Modelled from the spec: the constant state.PlatformYouTube is declared outside the
visible sources; the spec treats YouTube as a distinct source platform name. -/
def PlatformYouTube : String := "YouTube"

/-- Track record: identifier, display title, audio or video flag, source platform. -/
structure Track where
  id : String
  title : String
  video : Bool
  source : String
deriving DecidableEq

/-- Phases with which lower-level failures are wrapped, mirroring the wrap sites
that use the w verb of fmt.Errorf in the source. -/
inductive Phase where
  | apiRequest
  | getToken
  | createDir
  | downloadFailed
  | createRequest
  | requestFailed
  | createFile
  | writeErr
  | readErr
deriving DecidableEq

/-- Error values produced by the two providers. Leaves stand for the underlying Go
errors (context cancellation, deadline, generic io and transport failures, status
errors); wrap mirrors fmt.Errorf wrapping with the w verb. -/
inductive Err where
  | canceled
  | deadlineExceeded
  | ioErr
  | netErr
  | tooManyRedirects
  | apiStatus (code : Nat)
  | emptyToken
  | badStatus (code : Nat)
  | ytStatus (code : Nat)
  | emptyOrMissing
  | wrap (p : Phase) (e : Err)
deriving DecidableEq

/-- Model of Go errors.Is: the target matches the error itself or anything in its
unwrap chain. -/
def errIs (e t : Err) : Bool :=
  match e with
  | .wrap p inner => decide (Err.wrap p inner = t) || errIs inner t
  | e0 => decide (e0 = t)

/-- Check mirroring errors.Is(err, context.Canceled) or
errors.Is(err, context.DeadlineExceeded) as done in the source. -/
def isCtxErr (e : Err) : Bool :=
  errIs e .canceled || errIs e .deadlineExceeded

/-- Filesystem model: a finite map from path to file size, as an association list. -/
abbrev FS := List (String × Nat)

/-- Model of os.Stat: size of the file at a path, none when the file is missing. -/
def FS.stat : FS → String → Option Nat
  | [], _ => none
  | (q, n) :: rest, p => if p = q then some n else FS.stat rest p

/-- Helper used by create and write: set the size stored for a path. -/
def FS.setSize : FS → String → Nat → FS
  | [], p, n => [(p, n)]
  | (q, m) :: rest, p, n => if p = q then (p, n) :: rest else (q, m) :: FS.setSize rest p n

/-- Model of os.Remove: drop the file at a path. -/
def FS.remove : FS → String → FS
  | [], _ => []
  | (q, m) :: rest, p => if p = q then FS.remove rest p else (q, m) :: FS.remove rest p

/-- Model of os.Create: truncate or create the file at a path with size zero. -/
def FS.create (fs : FS) (p : String) : FS := fs.setSize p 0

/-- File write: grow the file at a path by n bytes. -/
def FS.write (fs : FS) (p : String) (n : Nat) : FS :=
  match fs.stat p with
  | some m => fs.setSize p (m + n)
  | none => fs.setSize p n

/-- Cancellation context: doneAt gives the poll index from which the Done channel is
closed; canceled tells whether the context error is context.Canceled (true) or
context.DeadlineExceeded (false). -/
structure Ctx where
  doneAt : Option Nat
  canceled : Bool
deriving DecidableEq

/-- Whether the context has fired by poll index i. -/
def Ctx.doneBy (c : Ctx) (i : Nat) : Bool :=
  match c.doneAt with
  | none => false
  | some k => decide (k ≤ i)

/-- Value of the context error once the context has fired. -/
def Ctx.err (c : Ctx) : Err :=
  if c.canceled then .canceled else .deadlineExceeded

/-- Network requests observable during a download attempt: a control-plane token
request or a data-plane stream request. -/
inductive NetReq where
  | control
  | data
deriving DecidableEq

/-- Outcome of the control-plane HTTP exchange: a transport error, or a response
with its status code and the parsed download token field. -/
inductive TokenResp where
  | netFail (e : Err)
  | resp (status : Nat) (token : String)
deriving DecidableEq

/-- Model of the resty IsError predicate: any status code above 399. -/
def respIsError (status : Nat) : Bool := decide (399 < status)

/-- Events of one chunked read in the streaming loop: a chunk of n bytes whose
write to the output file may fail, end of the stream, or a read error carrying
the underlying error. -/
inductive ReadEv where
  | chunk (n : Nat) (writeFails : Bool)
  | eof
  | rerr (e : Err)
deriving DecidableEq

/-- Deterministic cache extension: mp4 for video tracks, mp3 for audio tracks. -/
def shrutiExt (video : Bool) : String := if video then ".mp4" else ".mp3"

/-- Deterministic cache path for a track identifier and media kind. -/
def shrutiPath (tid : String) (video : Bool) : String :=
  "downloads/" ++ tid ++ shrutiExt video

/-- Modelled from the spec: the helper checkDownloadedFile called by the ShrutiAPI
Download is not among the visible sources; per the spec the CacheCheck step computes
the deterministic path from the identifier and the media kind and reports it when
the file exists. -/
def checkDownloadedFile (fs : FS) (tid : String) (video : Bool) : Option String :=
  if (fs.stat (shrutiPath tid video)).isSome then some (shrutiPath tid video) else none

/-- Environment of one data-plane exchange: request construction failure, transport
outcome of the client call, number of redirect responses before the final response,
final status code, output file creation failure, and the body read trace. -/
structure StreamEnv where
  reqCreateFails : Bool
  transportErr : Option Err
  redirects : Nat
  finalStatus : Nat
  createFails : Bool
  body : List ReadEv
deriving DecidableEq

/-- Environment of one ShrutiAPI Download attempt: downloads-directory creation
failure, control-plane outcome, and data-plane environment. -/
structure ShrutiEnv where
  mkdirFails : Bool
  tokenResp : TokenResp
  stream : StreamEnv
deriving DecidableEq

/-- Environment of one Youtubify downloadAudio call: directory creation failure,
transport outcome of the client Get, response status, file creation failure, bytes
written by the copy and the copy error if any. -/
structure YtEnv where
  mkdirFails : Bool
  getErr : Option Err
  status : Nat
  createFails : Bool
  copyBytes : Nat
  copyErr : Option Err
deriving DecidableEq

namespace ShrutiAPIPlatform

/-- Name of the provider, from the source. -/
def Name : String := PlatformShrutiAPI

/-- IsValid from the source: the provider is download-only, every query is refused. -/
def IsValid (_query : String) : Bool := false

/-- GetTracks from the source: always the download-only error. -/
def GetTracks (_query : String) (_flag : Bool) : Except String (List Track) :=
  .error "shrutiapi is a download-only platform"

/-- IsDownloadSupported from the source: true exactly for the YouTube platform. -/
def IsDownloadSupported (source : String) : Bool := decide (source = PlatformYouTube)

/-- getDownloadToken from the source: one control-plane request; a context error is
returned as is, any other transport error is wrapped as an api request failure, an
error status or an empty token fails. -/
def getDownloadToken (r : TokenResp) : List NetReq × Except Err String :=
  ([.control],
    match r with
    | .netFail e => if isCtxErr e then .error e else .error (.wrap .apiRequest e)
    | .resp status token =>
      if respIsError status then .error (.apiStatus status)
      else if token = "" then .error .emptyToken
      else .ok token)

/-- Chunked copy loop of downloadFile: before each read the context is polled and the
context error is returned once it has fired; a chunk is written to the output file;
end of stream exits the loop; write and read errors are wrapped. -/
def readLoop (ctx : Ctx) (fp : String) : List ReadEv → Nat → FS → FS × Except Err Unit
  | [], i, fs =>
    if ctx.doneBy i then (fs, .error ctx.err) else (fs, .ok ())
  | .eof :: _, i, fs =>
    if ctx.doneBy i then (fs, .error ctx.err) else (fs, .ok ())
  | .rerr e :: _, i, fs =>
    if ctx.doneBy i then (fs, .error ctx.err) else (fs, .error (.wrap .readErr e))
  | .chunk n wf :: rest, i, fs =>
    if ctx.doneBy i then (fs, .error ctx.err)
    else if wf then (fs, .error (.wrap .writeErr .ioErr))
    else readLoop ctx fp rest (i + 1) (fs.write fp n)

/-- Redirect following of the data-plane client: the second argument counts the
requests already made; the CheckRedirect hook refuses once that count reaches 10.
Returns the total number of requests made and the outcome. -/
def followRedirects : Nat → Nat → Nat × Except Err Unit
  | 0, made => (made, .ok ())
  | r + 1, made =>
    if 10 ≤ made then (made, .error .tooManyRedirects)
    else followRedirects r (made + 1)

/-- downloadFile from the source: build the request, run the client under the
ten-redirect cap, require status 200, create the output file and run the chunked
loop. Context errors from the exchange are returned as is, other client errors are
wrapped as request failures. -/
def downloadFile (ctx : Ctx) (env : StreamEnv) (fp : String) (fs : FS) :
    FS × List NetReq × Except Err Unit :=
  if env.reqCreateFails then (fs, [], .error (.wrap .createRequest .ioErr))
  else
    match env.transportErr with
    | some e =>
      if isCtxErr e then (fs, [.data], .error e)
      else (fs, [.data], .error (.wrap .requestFailed e))
    | none =>
      match followRedirects env.redirects 1 with
      | (made, .error e) =>
        if isCtxErr e then (fs, List.replicate made .data, .error e)
        else (fs, List.replicate made .data, .error (.wrap .requestFailed e))
      | (made, .ok _) =>
        if env.finalStatus ≠ 200 then
          (fs, List.replicate made .data, .error (.badStatus env.finalStatus))
        else if env.createFails then
          (fs, List.replicate made .data, .error (.wrap .createFile .ioErr))
        else
          match readLoop ctx fp env.body 0 (fs.create fp) with
          | (fs1, res) => (fs1, List.replicate made .data, res)

/-- Download from the source: cache check, ensure the downloads directory, token
request, streamed transfer with removal of the output file on error, and final
verification that the file exists and is nonempty. -/
def Download (ctx : Ctx) (env : ShrutiEnv) (track : Track) (fs : FS) :
    FS × List NetReq × Except Err String :=
  match checkDownloadedFile fs track.id track.video with
  | some path => (fs, [], .ok path)
  | none =>
    if env.mkdirFails then (fs, [], .error (.wrap .createDir .ioErr))
    else
      match getDownloadToken env.tokenResp with
      | (reqs, .error e) => (fs, reqs, .error (.wrap .getToken e))
      | (reqs, .ok _) =>
        match downloadFile ctx env.stream (shrutiPath track.id track.video) fs with
        | (fs1, reqs2, .error e) =>
          (fs1.remove (shrutiPath track.id track.video), reqs ++ reqs2,
            .error (.wrap .downloadFailed e))
        | (fs1, reqs2, .ok _) =>
          match fs1.stat (shrutiPath track.id track.video) with
          | none =>
            (fs1.remove (shrutiPath track.id track.video), reqs ++ reqs2,
              .error .emptyOrMissing)
          | some sz =>
            if sz = 0 then
              (fs1.remove (shrutiPath track.id track.video), reqs ++ reqs2,
                .error .emptyOrMissing)
            else (fs1, reqs ++ reqs2, .ok (shrutiPath track.id track.video))

end ShrutiAPIPlatform

namespace YoutubifyPlatform

/-- Name of the provider, from the source. -/
def Name : String := PlatformYoutubify

/-- IsValid from the source: always false. -/
def IsValid (_query : String) : Bool := false

/-- GetTracks from the source: always the direct-download error. -/
def GetTracks (_query : String) : Except String (List Track) :=
  .error "Youtubify is a direct download platform"

/-- IsDownloadSupported from the source: true exactly for the YouTube platform. -/
def IsDownloadSupported (source : String) : Bool := decide (source = PlatformYouTube)

/-- downloadAudio from the source: fixed mp3 path, cache check by existence, mkdir,
client Get, status check, file creation, copy of the body; errors are returned raw,
with no cleanup of the output file and no size verification. -/
def downloadAudio (env : YtEnv) (videoID : String) (fs : FS) :
    FS × List NetReq × Except Err String :=
  if (fs.stat ("downloads/" ++ videoID ++ ".mp3")).isSome then
    (fs, [], .ok ("downloads/" ++ videoID ++ ".mp3"))
  else if env.mkdirFails then (fs, [], .error .ioErr)
  else
    match env.getErr with
    | some e => (fs, [.data], .error e)
    | none =>
      if env.status ≠ 200 then (fs, [.data], .error (.ytStatus env.status))
      else if env.createFails then (fs, [.data], .error .ioErr)
      else
        match env.copyErr with
        | some e =>
          ((fs.create ("downloads/" ++ videoID ++ ".mp3")).write
              ("downloads/" ++ videoID ++ ".mp3") env.copyBytes, [.data], .error e)
        | none =>
          ((fs.create ("downloads/" ++ videoID ++ ".mp3")).write
              ("downloads/" ++ videoID ++ ".mp3") env.copyBytes, [.data],
            .ok ("downloads/" ++ videoID ++ ".mp3"))

/-- Download from the source: ignores the context and the video flag of the track and
delegates to downloadAudio on the track identifier. -/
def Download (_ctx : Ctx) (env : YtEnv) (track : Track) (fs : FS) :
    FS × List NetReq × Except Err String :=
  downloadAudio env track.id fs

end YoutubifyPlatform

/-! Helper lemmas about the filesystem model. -/

/-- Setting the size of a path makes stat report that size. -/
theorem FS.stat_setSize_self (fs : FS) (p : String) (n : Nat) :
    (fs.setSize p n).stat p = some n := by
  induction fs with
  | nil => simp [FS.setSize, FS.stat]
  | cons hd tl ih =>
    obtain ⟨q, m⟩ := hd
    by_cases h : p = q <;> simp [FS.setSize, FS.stat, h, ih]

/-- Removing a path makes stat report it missing. -/
theorem FS.stat_remove_self (fs : FS) (p : String) :
    (fs.remove p).stat p = none := by
  induction fs with
  | nil => simp [FS.remove, FS.stat]
  | cons hd tl ih =>
    obtain ⟨q, m⟩ := hd
    by_cases h : p = q
    · subst h
      simpa [FS.remove] using ih
    · simp [FS.remove, FS.stat, h, ih]

/-- Creating a file and then writing n bytes leaves a file of size n. -/
theorem FS.stat_create_write (fs : FS) (p : String) (n : Nat) :
    ((fs.create p).write p n).stat p = some n := by
  simp [FS.create, FS.write, FS.stat_setSize_self]

/-- A missing cache entry means the deterministic path is absent. -/
theorem checkDownloadedFile_none {fs : FS} {tid : String} {video : Bool}
    (h : checkDownloadedFile fs tid video = none) :
    fs.stat (shrutiPath tid video) = none := by
  by_cases hs : (fs.stat (shrutiPath tid video)).isSome
  · simp [checkDownloadedFile, hs] at h
  · exact Option.not_isSome_iff_eq_none.mp hs

/-- A cache hit reports the deterministic path, which exists. -/
theorem checkDownloadedFile_some {fs : FS} {tid : String} {video : Bool} {path : String}
    (h : checkDownloadedFile fs tid video = some path) :
    path = shrutiPath tid video ∧ (fs.stat (shrutiPath tid video)).isSome = true := by
  by_cases hs : (fs.stat (shrutiPath tid video)).isSome
  · refine ⟨?_, hs⟩
    simp [checkDownloadedFile, hs] at h
    exact h.symm
  · simp [checkDownloadedFile, hs] at h

/-- Characterization of a successful ShrutiAPI Download: the returned path is the
deterministic cache path and the file exists afterward. -/
theorem shruti_download_ok {ctx : Ctx} {env : ShrutiEnv} {track : Track}
    {fs fs1 : FS} {reqs : List NetReq} {p : String}
    (h : ShrutiAPIPlatform.Download ctx env track fs = (fs1, reqs, .ok p)) :
    p = shrutiPath track.id track.video ∧ (fs1.stat p).isSome = true := by
  unfold ShrutiAPIPlatform.Download at h
  split at h
  · rename_i path hcache
    obtain ⟨hpath, hsome⟩ := checkDownloadedFile_some hcache
    simp only [Prod.mk.injEq, Except.ok.injEq] at h
    obtain ⟨rfl, -, rfl⟩ := h
    exact ⟨hpath, hpath ▸ hsome⟩
  · rename_i hcache
    split at h
    · simp at h
    · split at h
      · simp at h
      · split at h
        · simp at h
        · rename_i fs2 reqs2 u hdl
          split at h
          · simp at h
          · rename_i sz hstat
            split at h
            · simp at h
            · rename_i hsz
              simp only [Prod.mk.injEq, Except.ok.injEq] at h
              obtain ⟨rfl, -, rfl⟩ := h
              simp [hstat]

/-- Characterization of a failed ShrutiAPI Download: the deterministic cache path is
absent afterward. -/
theorem shruti_download_error {ctx : Ctx} {env : ShrutiEnv} {track : Track}
    {fs fs1 : FS} {reqs : List NetReq} {e : Err}
    (h : ShrutiAPIPlatform.Download ctx env track fs = (fs1, reqs, .error e)) :
    fs1.stat (shrutiPath track.id track.video) = none := by
  unfold ShrutiAPIPlatform.Download at h
  split at h
  · simp at h
  · rename_i hcache
    have hmiss := checkDownloadedFile_none hcache
    split at h
    · simp only [Prod.mk.injEq] at h
      obtain ⟨rfl, -, -⟩ := h
      exact hmiss
    · split at h
      · simp only [Prod.mk.injEq] at h
        obtain ⟨rfl, -, -⟩ := h
        exact hmiss
      · split at h
        · simp only [Prod.mk.injEq] at h
          obtain ⟨rfl, -, -⟩ := h
          exact FS.stat_remove_self ..
        · split at h
          · simp only [Prod.mk.injEq] at h
            obtain ⟨rfl, -, -⟩ := h
            exact FS.stat_remove_self ..
          · split at h
            · simp only [Prod.mk.injEq] at h
              obtain ⟨rfl, -, -⟩ := h
              exact FS.stat_remove_self ..
            · simp at h

/-- Characterization of a successful Youtubify downloadAudio: the returned path is
the fixed mp3 path and the file exists afterward. -/
theorem youtubify_downloadAudio_ok {env : YtEnv} {vid : String} {fs fs1 : FS}
    {reqs : List NetReq} {p : String}
    (h : YoutubifyPlatform.downloadAudio env vid fs = (fs1, reqs, .ok p)) :
    p = "downloads/" ++ vid ++ ".mp3" ∧ (fs1.stat p).isSome = true := by
  unfold YoutubifyPlatform.downloadAudio at h
  split at h
  · rename_i hhit
    simp only [Prod.mk.injEq, Except.ok.injEq] at h
    obtain ⟨rfl, -, rfl⟩ := h
    exact ⟨rfl, hhit⟩
  · rename_i hmiss
    split at h
    · simp at h
    · split at h
      · simp at h
      · split at h
        · simp at h
        · split at h
          · simp at h
          · split at h
            · simp at h
            · simp only [Prod.mk.injEq, Except.ok.injEq] at h
              obtain ⟨rfl, -, rfl⟩ := h
              refine ⟨rfl, ?_⟩
              simp [FS.stat_create_write]

/-- Once the context fires at poll index k, the streaming loop never looks beyond
the first k - i events of the remaining body. -/
theorem readLoop_take {ctx : Ctx} {k : Nat} (hk : ctx.doneAt = some k) (fp : String) :
    ∀ (evs : List ReadEv) (i : Nat) (fs : FS),
      ShrutiAPIPlatform.readLoop ctx fp evs i fs
        = ShrutiAPIPlatform.readLoop ctx fp (evs.take (k - i)) i fs := by
  intro evs
  induction evs with
  | nil =>
    intro i fs
    simp
  | cons e rest ih =>
    intro i fs
    by_cases hdone : k ≤ i
    · have hd : ctx.doneBy i = true := by
        simp [Ctx.doneBy, hk]
        omega
      have hz : k - i = 0 := by omega
      rw [hz]
      cases e <;> simp [ShrutiAPIPlatform.readLoop, hd]
    · have hd : ctx.doneBy i = false := by
        simp [Ctx.doneBy, hk]
        omega
      have hki : k - i = (k - (i + 1)) + 1 := by omega
      cases e with
      | chunk n wf =>
        rw [hki, List.take_succ_cons]
        cases wf
        · simp only [ShrutiAPIPlatform.readLoop, hd, Bool.false_eq_true, if_false]
          exact ih (i + 1) (fs.write fp n)
        · simp [ShrutiAPIPlatform.readLoop, hd]
      | eof =>
        rw [hki, List.take_succ_cons]
        simp [ShrutiAPIPlatform.readLoop]
      | rerr e2 =>
        rw [hki, List.take_succ_cons]
        simp [ShrutiAPIPlatform.readLoop]

/-- If the context fires at poll index k before the body is exhausted and the first
k events are plain successfully written chunks, the streaming loop returns the
context error. -/
theorem readLoop_cancel {ctx : Ctx} {k : Nat} (hk : ctx.doneAt = some k) (fp : String) :
    ∀ (evs : List ReadEv) (i : Nat) (fs : FS),
      (∀ e ∈ evs.take (k - i), ∃ n, e = ReadEv.chunk n false) →
      k - i < evs.length →
      (ShrutiAPIPlatform.readLoop ctx fp evs i fs).2 = .error ctx.err := by
  intro evs
  induction evs with
  | nil =>
    intro i fs hch hlen
    simp at hlen
  | cons e rest ih =>
    intro i fs hch hlen
    by_cases hdone : k ≤ i
    · have hd : ctx.doneBy i = true := by
        simp [Ctx.doneBy, hk]
        omega
      cases e <;> simp [ShrutiAPIPlatform.readLoop, hd]
    · have hd : ctx.doneBy i = false := by
        simp [Ctx.doneBy, hk]
        omega
      have hki : k - i = (k - (i + 1)) + 1 := by omega
      have hhead : e ∈ (e :: rest).take (k - i) := by
        rw [hki, List.take_succ_cons]
        exact List.mem_cons_self ..
      obtain ⟨n, rfl⟩ := hch e hhead
      simp only [ShrutiAPIPlatform.readLoop, hd, Bool.false_eq_true, if_false]
      apply ih (i + 1)
      · intro e2 he2
        apply hch
        rw [hki, List.take_succ_cons]
        exact List.mem_cons_of_mem _ he2
      · simp only [List.length_cons] at hlen
        omega

/-- Outcome of redirect following: success exactly when the chain ends before the
cap refuses a further request, the tooManyRedirects error otherwise. -/
theorem followRedirects_spec :
    ∀ (r m : Nat), (ShrutiAPIPlatform.followRedirects r m).2
      = if r = 0 ∨ r + m ≤ 10 then .ok () else .error .tooManyRedirects := by
  intro r
  induction r with
  | zero =>
    intro m
    simp [ShrutiAPIPlatform.followRedirects]
  | succ r ih =>
    intro m
    by_cases hm : 10 ≤ m
    · have hno : ¬(r + 1 + m ≤ 10) := by omega
      simp [ShrutiAPIPlatform.followRedirects, hm, hno]
    · have h2 : (r + 1 = 0 ∨ r + 1 + m ≤ 10) ↔ (r = 0 ∨ r + (m + 1) ≤ 10) := by omega
      simp only [ShrutiAPIPlatform.followRedirects, if_neg hm]
      rw [ih (m + 1)]
      by_cases hc : r = 0 ∨ r + (m + 1) ≤ 10
      · rw [if_pos hc, if_pos (h2.mpr hc)]
      · rw [if_neg hc, if_neg (fun hx => hc (h2.mp hx))]

/-! Claim theorems. -/

/-- C8: for every download-only provider variant, IsValid returns false for every
query, and GetTracks always fails with a descriptive not-supported error instead of
returning tracks. -/
theorem claim8_download_only_variants (q : String) (flag : Bool) :
    ShrutiAPIPlatform.IsValid q = false ∧
    YoutubifyPlatform.IsValid q = false ∧
    ShrutiAPIPlatform.GetTracks q flag = .error "shrutiapi is a download-only platform" ∧
    YoutubifyPlatform.GetTracks q = .error "Youtubify is a direct download platform" :=
  ⟨rfl, rfl, rfl, rfl⟩

/-- C10: for both provider variants, IsDownloadSupported is true exactly for the
YouTube source platform; in particular each variant rejects its own platform name. -/
theorem claim10_download_supported_iff (s : String) :
    (ShrutiAPIPlatform.IsDownloadSupported s = true ↔ s = PlatformYouTube) ∧
    (YoutubifyPlatform.IsDownloadSupported s = true ↔ s = PlatformYouTube) ∧
    ShrutiAPIPlatform.IsDownloadSupported PlatformShrutiAPI = false ∧
    YoutubifyPlatform.IsDownloadSupported PlatformYoutubify = false := by
  refine ⟨?_, ?_, by decide, by decide⟩ <;>
    simp [ShrutiAPIPlatform.IsDownloadSupported, YoutubifyPlatform.IsDownloadSupported]

/-- Witness for C10 at the YouTube platform name. -/
theorem claim10_witness :
    ShrutiAPIPlatform.IsDownloadSupported PlatformYouTube = true :=
  (claim10_download_supported_iff PlatformYouTube).1.mpr rfl

/-- C9: a context cancellation or deadline error from the control-plane or
data-plane request is returned as is, while any other transport error is wrapped
with the phase context, so errors.Is on the result distinguishes cancellation. -/
theorem claim9_context_error_unwrapped (e : Err) (ctx : Ctx) (fp : String) (fs : FS)
    (r status : Nat) (cf : Bool) (body : List ReadEv) :
    (isCtxErr e = true →
      (ShrutiAPIPlatform.getDownloadToken (.netFail e)).2 = .error e ∧
      ShrutiAPIPlatform.downloadFile ctx ⟨false, some e, r, status, cf, body⟩ fp fs
        = (fs, [.data], .error e)) ∧
    (isCtxErr e = false →
      (ShrutiAPIPlatform.getDownloadToken (.netFail e)).2 = .error (.wrap .apiRequest e) ∧
      ShrutiAPIPlatform.downloadFile ctx ⟨false, some e, r, status, cf, body⟩ fp fs
        = (fs, [.data], .error (.wrap .requestFailed e))) := by
  constructor
  · intro h
    exact ⟨by simp [ShrutiAPIPlatform.getDownloadToken, h],
      by simp [ShrutiAPIPlatform.downloadFile, h]⟩
  · intro h
    exact ⟨by simp [ShrutiAPIPlatform.getDownloadToken, h],
      by simp [ShrutiAPIPlatform.downloadFile, h]⟩

/-- Witness for C9 at the canceled context error. -/
theorem claim9_witness :
    (ShrutiAPIPlatform.getDownloadToken (.netFail .canceled)).2 = .error .canceled ∧
    ShrutiAPIPlatform.downloadFile ⟨none, true⟩ ⟨false, some .canceled, 0, 200, false, []⟩
        "downloads/w9.mp3" [] = ([], [.data], .error .canceled) :=
  (claim9_context_error_unwrapped .canceled ⟨none, true⟩ "downloads/w9.mp3" []
      0 200 false []).1 rfl

/-- C4: when the control-plane endpoint yields a non-success status or an empty
token, the ShrutiAPI Download fails with a token-related error, issues only the one
control request and no stream request, and leaves the filesystem unchanged, so no
file is created. -/
theorem claim4_token_failure_no_stream (ctx : Ctx) (stream : StreamEnv) (track : Track)
    (fs : FS) (status : Nat) (token : String)
    (hmiss : checkDownloadedFile fs track.id track.video = none) :
    (respIsError status = true →
      ShrutiAPIPlatform.Download ctx ⟨false, .resp status token, stream⟩ track fs
        = (fs, [.control], .error (.wrap .getToken (.apiStatus status)))) ∧
    (respIsError status = false → token = "" →
      ShrutiAPIPlatform.Download ctx ⟨false, .resp status token, stream⟩ track fs
        = (fs, [.control], .error (.wrap .getToken .emptyToken))) := by
  constructor
  · intro h
    simp [ShrutiAPIPlatform.Download, hmiss, ShrutiAPIPlatform.getDownloadToken, h]
  · intro h1 h2
    simp [ShrutiAPIPlatform.Download, hmiss, ShrutiAPIPlatform.getDownloadToken, h1, h2]

/-- Witness for C4: a 500 status from the token endpoint on an empty filesystem. -/
theorem claim4_witness :
    ShrutiAPIPlatform.Download ⟨none, true⟩
        ⟨false, .resp 500 "", ⟨false, none, 0, 200, false, []⟩⟩
        ⟨"w4", "t", false, PlatformYouTube⟩ []
      = ([], [.control], .error (.wrap .getToken (.apiStatus 500))) :=
  (claim4_token_failure_no_stream ⟨none, true⟩ ⟨false, none, 0, 200, false, []⟩
      ⟨"w4", "t", false, PlatformYouTube⟩ [] 500 "" rfl).1 rfl

/-- C7: the data-plane client follows redirects only up to the fixed cap of 10: a
chain that the client completes never exceeds the cap, and any longer chain yields
the definite tooManyRedirects failure, surfaced by downloadFile as a wrapped request
failure. -/
theorem claim7_redirect_cap (r : Nat) (ctx : Ctx) (fp : String) (fs : FS)
    (status : Nat) (cf : Bool) (body : List ReadEv) :
    ((ShrutiAPIPlatform.followRedirects r 1).2 = .ok () → r ≤ 10) ∧
    (10 < r → (ShrutiAPIPlatform.followRedirects r 1).2 = .error .tooManyRedirects) ∧
    (10 < r →
      (ShrutiAPIPlatform.downloadFile ctx ⟨false, none, r, status, cf, body⟩ fp fs).2.2
        = .error (.wrap .requestFailed .tooManyRedirects)) := by
  have hspec := followRedirects_spec r 1
  refine ⟨?_, ?_, ?_⟩
  · intro h
    by_cases hc : r = 0 ∨ r + 1 ≤ 10
    · omega
    · rw [hspec, if_neg hc] at h
      simp at h
  · intro h
    have hc : ¬(r = 0 ∨ r + 1 ≤ 10) := by omega
    rw [hspec, if_neg hc]
  · intro h
    have hc : ¬(r = 0 ∨ r + 1 ≤ 10) := by omega
    rcases hfr : ShrutiAPIPlatform.followRedirects r 1 with ⟨made, res⟩
    rw [hfr] at hspec
    rw [if_neg hc] at hspec
    simp only at hspec
    subst hspec
    have hce : isCtxErr Err.tooManyRedirects = false := rfl
    simp [ShrutiAPIPlatform.downloadFile, hfr, hce]

/-- Witness for C7 at a chain of 11 redirect responses. -/
theorem claim7_witness :
    (ShrutiAPIPlatform.followRedirects 11 1).2 = .error .tooManyRedirects :=
  (claim7_redirect_cap 11 ⟨none, true⟩ "downloads/w7.mp3" [] 200 false []).2.1
    (by omega)

/-- C1 counterexample: the Youtubify Download fails during the body copy yet leaves
the partially written file in the cache, refuting the no-partial-file claim for
every provider. -/
theorem claim1_counterexample :
    YoutubifyPlatform.Download ⟨none, false⟩ ⟨false, none, 200, false, 5, some .netErr⟩
        ⟨"c1y", "t", false, PlatformYouTube⟩ []
      = ([("downloads/c1y.mp3", 5)], [.data], .error .netErr) ∧
    FS.stat [("downloads/c1y.mp3", 5)] "downloads/c1y.mp3" = some 5 :=
  ⟨rfl, rfl⟩

/-- C1 (amended): for the ShrutiAPI provider, on every failure path of Download the
target cache file does not exist afterward; the Youtubify provider lacks this
guarantee on a stream-copy failure. -/
theorem claim1_no_partial_file (ctx : Ctx) (env : ShrutiEnv) (track : Track)
    (fs fs1 : FS) (reqs : List NetReq) (e : Err)
    (h : ShrutiAPIPlatform.Download ctx env track fs = (fs1, reqs, .error e)) :
    fs1.stat (shrutiPath track.id track.video) = none :=
  shruti_download_error h

/-- Witness for C1 at a token transport failure on an empty filesystem. -/
theorem claim1_witness :
    FS.stat [] (shrutiPath "w1" false) = none :=
  claim1_no_partial_file ⟨none, false⟩
    ⟨false, .netFail .netErr, ⟨false, none, 0, 200, false, []⟩⟩
    ⟨"w1", "t", false, PlatformYouTube⟩ [] [] [.control]
    (.wrap .getToken (.wrap .apiRequest .netErr)) rfl

/-- C2 counterexample: with a context already fired from the start, the Youtubify
Download completes the whole transfer successfully instead of aborting with the
context error, refuting the cancellation claim for every provider. -/
theorem claim2_counterexample :
    Ctx.doneBy ⟨some 0, true⟩ 0 = true ∧
    YoutubifyPlatform.Download ⟨some 0, true⟩ ⟨false, none, 200, false, 7, none⟩
        ⟨"c2y", "t", false, PlatformYouTube⟩ []
      = ([("downloads/c2y.mp3", 7)], [.data], .ok "downloads/c2y.mp3") :=
  ⟨rfl, rfl⟩

/-- C2 (amended): in the ShrutiAPI streaming loop the context is polled before each
chunk read: once it fires at poll k, events beyond the first k are never read, and
when it fires before the body ends, after k cleanly written chunks, the loop aborts
with the context error; the Youtubify Download ignores the context entirely. -/
theorem claim2_streaming_cancellation (ctx : Ctx) (fp : String) (evs : List ReadEv)
    (fs : FS) (k : Nat) (hk : ctx.doneAt = some k) :
    (ShrutiAPIPlatform.readLoop ctx fp evs 0 fs
      = ShrutiAPIPlatform.readLoop ctx fp (evs.take k) 0 fs) ∧
    ((∀ e ∈ evs.take k, ∃ n, e = ReadEv.chunk n false) → k < evs.length →
      (ShrutiAPIPlatform.readLoop ctx fp evs 0 fs).2 = .error ctx.err) := by
  constructor
  · have hx := readLoop_take hk fp evs 0 fs
    simpa using hx
  · intro hch hlen
    exact readLoop_cancel hk fp evs 0 fs (by simpa using hch) (by simpa using hlen)

/-- Witness for C2: the loop aborts with the canceled error after one chunk. -/
theorem claim2_witness :
    (ShrutiAPIPlatform.readLoop ⟨some 1, true⟩ "downloads/w2.mp3"
        [.chunk 3 false, .eof] 0 []).2 = .error (Ctx.err ⟨some 1, true⟩) :=
  (claim2_streaming_cancellation ⟨some 1, true⟩ "downloads/w2.mp3"
      [.chunk 3 false, .eof] [] 1 rfl).2
    (by
      intro e he
      simp at he
      exact ⟨3, he⟩)
    (by decide)

/-- C3: after a first successful Download for a track, a second Download call for
the same track performs zero network requests and returns the same path, for both
provider variants. -/
theorem claim3_second_download_cached (ctx ctx2 : Ctx) (env env2 : ShrutiEnv)
    (yenv yenv2 : YtEnv) (track : Track) (fs fs1 gs gs1 : FS)
    (reqs qreqs : List NetReq) (p q : String) :
    (ShrutiAPIPlatform.Download ctx env track fs = (fs1, reqs, .ok p) →
      ShrutiAPIPlatform.Download ctx2 env2 track fs1 = (fs1, [], .ok p)) ∧
    (YoutubifyPlatform.Download ctx yenv track gs = (gs1, qreqs, .ok q) →
      YoutubifyPlatform.Download ctx2 yenv2 track gs1 = (gs1, [], .ok q)) := by
  constructor
  · intro h
    obtain ⟨hp, hsome⟩ := shruti_download_ok h
    subst hp
    have hcache : checkDownloadedFile fs1 track.id track.video
        = some (shrutiPath track.id track.video) := by
      simp [checkDownloadedFile, hsome]
    simp [ShrutiAPIPlatform.Download, hcache]
  · intro h
    unfold YoutubifyPlatform.Download at h ⊢
    obtain ⟨hq, hsome⟩ := youtubify_downloadAudio_ok h
    subst hq
    simp [YoutubifyPlatform.downloadAudio, hsome]

/-- Witness for C3: a full miss-then-success ShrutiAPI run, followed by a second
call under a hostile environment that still answers from the cache. -/
theorem claim3_witness :
    ShrutiAPIPlatform.Download ⟨some 0, true⟩
        ⟨false, .netFail .netErr, ⟨false, none, 0, 404, false, []⟩⟩
        ⟨"w3", "t", false, PlatformYouTube⟩ [("downloads/w3.mp3", 4)]
      = ([("downloads/w3.mp3", 4)], [], .ok "downloads/w3.mp3") :=
  (claim3_second_download_cached ⟨none, false⟩ ⟨some 0, true⟩
      ⟨false, .resp 200 "T3", ⟨false, none, 0, 200, false, [.chunk 4 false, .eof]⟩⟩
      ⟨false, .netFail .netErr, ⟨false, none, 0, 404, false, []⟩⟩
      ⟨false, none, 200, false, 0, none⟩ ⟨false, none, 200, false, 0, none⟩
      ⟨"w3", "t", false, PlatformYouTube⟩ [] [("downloads/w3.mp3", 4)] [] []
      [.control, .data] [] "downloads/w3.mp3" "").1 rfl

/-- C5 counterexample: the Youtubify Download returns success with a zero-byte file
left in the cache, performing no size verification after the stream, refuting the
claim for every provider. -/
theorem claim5_counterexample :
    YoutubifyPlatform.Download ⟨none, false⟩ ⟨false, none, 200, false, 0, none⟩
        ⟨"c5y", "t", false, PlatformYouTube⟩ []
      = ([("downloads/c5y.mp3", 0)], [.data], .ok "downloads/c5y.mp3") :=
  rfl

/-- C5 (amended): the ShrutiAPI Download verifies the streamed file: on a cache miss
a path is returned only when the file exists with nonzero size, and on failure no
file is left; the Youtubify provider performs no such verification. -/
theorem claim5_verify_nonempty (ctx : Ctx) (env : ShrutiEnv) (track : Track)
    (fs fs1 : FS) (reqs : List NetReq) (p : String) (e : Err)
    (hmiss : checkDownloadedFile fs track.id track.video = none) :
    (ShrutiAPIPlatform.Download ctx env track fs = (fs1, reqs, .ok p) →
      ∃ sz, fs1.stat p = some sz ∧ 0 < sz) ∧
    (ShrutiAPIPlatform.Download ctx env track fs = (fs1, reqs, .error e) →
      fs1.stat (shrutiPath track.id track.video) = none) := by
  constructor
  · intro h
    simp only [ShrutiAPIPlatform.Download, hmiss] at h
    split at h
    · simp at h
    · split at h
      · simp at h
      · split at h
        · simp at h
        · split at h
          · simp at h
          · rename_i sz hstat
            split at h
            · simp at h
            · rename_i hsz
              simp only [Prod.mk.injEq, Except.ok.injEq] at h
              obtain ⟨rfl, -, rfl⟩ := h
              exact ⟨sz, hstat, Nat.pos_of_ne_zero hsz⟩
  · intro h
    exact shruti_download_error h

/-- Witness for C5: a successful five-byte stream yields a file of size five. -/
theorem claim5_witness :
    ∃ sz, FS.stat [("downloads/w5.mp3", 5)] "downloads/w5.mp3" = some sz ∧ 0 < sz :=
  (claim5_verify_nonempty ⟨none, false⟩
      ⟨false, .resp 200 "T5", ⟨false, none, 0, 200, false, [.chunk 5 false, .eof]⟩⟩
      ⟨"w5", "t", false, PlatformYouTube⟩ [] [("downloads/w5.mp3", 5)]
      [.control, .data] "downloads/w5.mp3" .netErr rfl).1 rfl

/-- C6 counterexample: the Youtubify Download of a video track succeeds with the mp3
path, not the mp4 path the claim derives from the media kind. -/
theorem claim6_counterexample :
    (YoutubifyPlatform.Download ⟨none, false⟩ ⟨false, none, 200, false, 9, none⟩
        ⟨"c6y", "t", true, PlatformYouTube⟩ []).2.2 = .ok "downloads/c6y.mp3" ∧
    "downloads/c6y.mp3" ≠ "downloads/" ++ "c6y" ++ ".mp4" :=
  ⟨rfl, by decide⟩

/-- C6 (amended): a successful ShrutiAPI Download returns the deterministic path
with mp3 for audio and mp4 for video, while a successful Youtubify Download always
returns the mp3 path regardless of the media kind of the track. -/
theorem claim6_deterministic_path (ctx ctx2 : Ctx) (env : ShrutiEnv) (yenv : YtEnv)
    (track : Track) (fs gs fs1 gs1 : FS) (reqs qreqs : List NetReq) (p q : String) :
    (ShrutiAPIPlatform.Download ctx env track fs = (fs1, reqs, .ok p) →
      p = "downloads/" ++ track.id ++ (if track.video then ".mp4" else ".mp3")) ∧
    (YoutubifyPlatform.Download ctx2 yenv track gs = (gs1, qreqs, .ok q) →
      q = "downloads/" ++ track.id ++ ".mp3") := by
  constructor
  · intro h
    have hx := (shruti_download_ok h).1
    simpa [shrutiPath, shrutiExt] using hx
  · intro h
    unfold YoutubifyPlatform.Download at h
    exact (youtubify_downloadAudio_ok h).1

/-- Witness for C6: a successful ShrutiAPI video download ends in mp4. -/
theorem claim6_witness :
    "downloads/w6.mp4" = "downloads/" ++ "w6" ++ (if true then ".mp4" else ".mp3") :=
  (claim6_deterministic_path ⟨none, false⟩ ⟨none, false⟩
      ⟨false, .resp 200 "T6", ⟨false, none, 0, 200, false, [.chunk 6 false, .eof]⟩⟩
      ⟨false, none, 200, false, 0, none⟩ ⟨"w6", "t", true, PlatformYouTube⟩
      [] [] [("downloads/w6.mp4", 6)] [] [.control, .data] [] "downloads/w6.mp4" "").1
    rfl

end YukkiMusic
